import Mathlib

/-!
Verification of the ruyahacks self-improving voice-agent backend.

The development shallowly embeds the TypeScript sources:
  * `backend/vapi.ts` (src/unnamed/part_008) — namespace `Vapi`;
  * the earlier vapi client iteration bundled beside `src/self-improve.ts`
    (lines 477-718 of that file) — namespace `VapiSI`;
  * `backend/tools.ts` — namespace `Tools`;
  * `backend/self-improve.ts` (src/unnamed/part_010) — namespace `SelfImprove`;
  * `backend/server.ts` (src/unnamed/part_006) — namespace `Server`;
  * `backend/baseline.ts` (appended to src/README.md) — namespace `Baseline`.

External HTTP calls (Vapi, Anthropic, n8n, Whapi) are modelled as oracle
fields of an environment record returning `Except String _`: a `.error`
value is a rejected promise, `.ok` a fulfilled one.  JavaScript numbers are
modelled as `Int` — the embedded code only moves them around, it never does
arithmetic on them.  Provider-side JSON documents (the live assistant
profile) are modelled with the small value type `JVal`; a PATCH against the
provider performs a shallow merge at the root, replacing each patched root
field wholesale, which is the semantics the source itself documents
("PATCH replaces entire model object").
-/

/-- A JSON-like value: the shape of provider-side documents such as the live
assistant profile.  Numbers are `Int` (the embedded code never computes with
them). -/
inductive JVal where
  | s (v : String)
  | n (v : Int)
  | b (v : Bool)
  | arr (vs : List JVal)
  | obj (fields : List (String × JVal))

/-- Field lookup in a JSON object, first occurrence wins (JS objects have
unique keys). -/
def getField : List (String × JVal) → String → Option JVal
  | [], _ => none
  | (k, v) :: rest, key => if k = key then some v else getField rest key

/-- Assign a field of a JSON object: replace in place when the key exists,
append otherwise — the semantics of JS property assignment and of
`Map.set`. -/
def setField : List (String × JVal) → String → JVal → List (String × JVal)
  | [], key, v => [(key, v)]
  | (k, w) :: rest, key, v =>
      if k = key then (key, v) :: rest else (k, w) :: setField rest key v

/-- View a value as an object (the `x as Record<string, unknown>` casts
followed by property access: non-objects behave as having no fields). -/
def asObj : Option JVal → Option (List (String × JVal))
  | some (JVal.obj fs) => some fs
  | _ => none

/-- JavaScript truthiness of an optional value. -/
def truthy : Option JVal → Bool
  | none => false
  | some (JVal.s v) => !v.isEmpty
  | some (JVal.n v) => v != 0
  | some (JVal.b v) => v
  | some (JVal.arr _) => true
  | some (JVal.obj _) => true

/-- Object-literal spread `{...o, ...patch}`: assign every field of `patch`
onto `o` in order. -/
def setFields (o patch : List (String × JVal)) : List (String × JVal) :=
  patch.foldl (fun acc kv => setField acc kv.1 kv.2) o

/-- The `AssistantConfig` interface of `backend/vapi.ts`: a partial profile
change.  Absent optional fields are `none`.  The interface's open index
signature (`[key: string]: unknown`) is not needed by any claim and is not
modelled. -/
structure AssistantConfig where
  systemMessage : Option String := none
  maxTokens : Option Int := none
  firstMessage : Option String := none
  voiceSpeed : Option Int := none
  silenceTimeoutSeconds : Option Int := none
  maxDurationSeconds : Option Int := none
  messagePlan : Option JVal := none
  toolIds : Option (List String) := none
deriving Inhabited

namespace Vapi

/-- Result of `getCurrentLlmConfig` in `backend/vapi.ts` (part_008 lines
83-117). -/
structure LlmConfig where
  field : String
  provider : JVal
  modelName : Option JVal
  existing : List (String × JVal)

/-- `getCurrentLlmConfig` (part_008 lines 83-117): probe the live profile
for a `model` object with a truthy `provider`, then an `llm` object, else a
fixed fallback.  Note the returned `existing` object is never used by
`updateAssistant` below. -/
def getCurrentLlmConfig (live : List (String × JVal)) : LlmConfig :=
  let model := (asObj (getField live "model")).getD []
  let llm := (asObj (getField live "llm")).getD []
  if truthy (getField model "provider") then
    { field := "model", provider := (getField model "provider").getD (JVal.s "")
      modelName := getField model "model", existing := model }
  else if truthy (getField llm "provider") then
    { field := "llm", provider := (getField llm "provider").getD (JVal.s "")
      modelName := getField llm "model", existing := llm }
  else
    { field := "model", provider := JVal.s "openai"
      modelName := some (JVal.s "gpt-4o"), existing := [] }

/-- The PATCH body assembled by `updateAssistant` in `backend/vapi.ts`
(part_008 lines 119-171), as a function of the partial changes and of the
live profile returned by the interleaved GETs.  For `maxTokens` the patched
`model`/`llm` object is rebuilt from scratch as
`{provider, model, maxTokens}`; `llmConfig.existing` is dropped. -/
def buildPatch (changes : AssistantConfig) (live : List (String × JVal)) :
    List (String × JVal) :=
  (match changes.systemMessage with
    | some s => [("instructions", JVal.s s)]
    | none => []) ++
  (match changes.maxTokens with
    | some mt =>
        let cfg := getCurrentLlmConfig live
        [(cfg.field, JVal.obj
          ([("provider", cfg.provider)] ++
           (match cfg.modelName with
             | some v => [("model", v)]
             | none => []) ++
           [("maxTokens", JVal.n mt)]))]
    | none => []) ++
  (match changes.toolIds with
    | some ids => [("toolIds", JVal.arr (ids.map JVal.s))]
    | none => []) ++
  (match changes.voiceSpeed with
    | some v =>
        let currentVoice := (asObj (getField live "voice")).getD []
        [("voice", JVal.obj (setFields currentVoice [("speed", JVal.n v)]))]
    | none => []) ++
  (match changes.firstMessage with
    | some f => [("firstMessage", JVal.s f)]
    | none => []) ++
  (match changes.silenceTimeoutSeconds with
    | some v => [("silenceTimeoutSeconds", JVal.n v)]
    | none => []) ++
  (match changes.maxDurationSeconds with
    | some v => [("maxDurationSeconds", JVal.n v)]
    | none => []) ++
  (match changes.messagePlan with
    | some mp => [("messagePlan", mp)]
    | none => [])

/-- The live profile after `updateAssistant` (part_008 lines 119-171): when
the patch is empty no write happens; otherwise the provider applies the
PATCH as a shallow root-level merge, each patched root field replacing the
stored one wholesale. -/
def updateAssistant (changes : AssistantConfig) (live : List (String × JVal)) :
    List (String × JVal) :=
  let patch := buildPatch changes live
  if patch.isEmpty then live else setFields live patch

end Vapi

namespace VapiSI

/-- The PATCH body assembled by the earlier `updateAssistant` iteration
(src/self-improve.ts lines 540-586): model-level changes are merged into the
current model object (`{...currentModel, ...modelPatch}`), preserving its
untouched sibling fields. -/
def buildPatch (changes : AssistantConfig) (live : List (String × JVal)) :
    List (String × JVal) :=
  let modelPatch : List (String × JVal) :=
    (match changes.systemMessage with
      | some s => [("messages", JVal.arr
          [JVal.obj [("role", JVal.s "system"), ("content", JVal.s s)]])]
      | none => []) ++
    (match changes.maxTokens with
      | some mt => [("maxTokens", JVal.n mt)]
      | none => []) ++
    (match changes.toolIds with
      | some ids => [("toolIds", JVal.arr (ids.map JVal.s))]
      | none => [])
  (if modelPatch.isEmpty then []
   else
     let currentModel := (asObj (getField live "model")).getD []
     [("model", JVal.obj (setFields currentModel modelPatch))]) ++
  (match changes.voiceSpeed with
    | some v =>
        let currentVoice := (asObj (getField live "voice")).getD []
        [("voice", JVal.obj (setFields currentVoice [("speed", JVal.n v)]))]
    | none => []) ++
  (match changes.firstMessage with
    | some f => [("firstMessage", JVal.s f)]
    | none => []) ++
  (match changes.silenceTimeoutSeconds with
    | some v => [("silenceTimeoutSeconds", JVal.n v)]
    | none => []) ++
  (match changes.maxDurationSeconds with
    | some v => [("maxDurationSeconds", JVal.n v)]
    | none => []) ++
  (match changes.messagePlan with
    | some mp => [("messagePlan", mp)]
    | none => [])

/-- The live profile after the earlier `updateAssistant` iteration. -/
def updateAssistant (changes : AssistantConfig) (live : List (String × JVal)) :
    List (String × JVal) :=
  let patch := buildPatch changes live
  if patch.isEmpty then live else setFields live patch

end VapiSI

/-- Assigning one key leaves every other key of an object unchanged. -/
theorem getField_setField_ne (o : List (String × JVal)) (k k' : String)
    (v : JVal) (h : k' ≠ k) : getField (setField o k v) k' = getField o k' := by
  induction o with
  | nil => simp [setField, getField, Ne.symm h]
  | cons hd tl ih =>
      by_cases hk : hd.1 = k
      · simp [setField, hk, getField, Ne.symm h]
      · simp [setField, hk, getField]
        by_cases hk' : hd.1 = k'
        · simp [hk']
        · simp [hk', ih]

/-- A concrete live profile: instructions at root, and a `model` object
carrying `provider`, `model`, a `temperature` field and the legacy
`messages` array. -/
def liveProfileC1 : List (String × JVal) :=
  [("instructions", JVal.s "You help with shipments."),
   ("firstMessage", JVal.s "Hello, this is Ruya Logistics."),
   ("silenceTimeoutSeconds", JVal.n 10),
   ("voice", JVal.obj [("provider", JVal.s "11labs"), ("speed", JVal.n 1)]),
   ("model", JVal.obj
     [("provider", JVal.s "anthropic"),
      ("model", JVal.s "claude-sonnet-4-5-20250929"),
      ("temperature", JVal.n 1),
      ("messages", JVal.arr
        [JVal.obj [("role", JVal.s "system"),
                   ("content", JVal.s "You help with shipments.")]])])]

/-- C1: applying the partial change `{maxTokens: 500}` through the
`backend/vapi.ts` adapter (part_008) drops the untouched sibling fields of
the `model` object: `temperature` and `messages` are present before the
write and absent after it, while the earlier iteration of the same adapter
(src/self-improve.ts lines 540-586) preserves them on the same input.  The
read-merge-write invariant claimed for the apply therefore fails in the
current adapter. -/
theorem c1_maxTokens_drops_model_siblings :
    getField ((asObj (getField liveProfileC1 "model")).getD [])
      "temperature" = some (JVal.n 1) ∧
    getField ((asObj (getField
        (Vapi.updateAssistant { maxTokens := some 500 } liveProfileC1)
        "model")).getD []) "temperature" = none ∧
    getField ((asObj (getField
        (Vapi.updateAssistant { maxTokens := some 500 } liveProfileC1)
        "model")).getD []) "messages" = none ∧
    getField ((asObj (getField
        (Vapi.updateAssistant { maxTokens := some 500 } liveProfileC1)
        "model")).getD []) "maxTokens" = some (JVal.n 500) ∧
    getField ((asObj (getField
        (VapiSI.updateAssistant { maxTokens := some 500 } liveProfileC1)
        "model")).getD []) "temperature" = some (JVal.n 1) ∧
    getField ((asObj (getField
        (VapiSI.updateAssistant { maxTokens := some 500 } liveProfileC1)
        "model")).getD []) "maxTokens" = some (JVal.n 500) := by
  refine ⟨rfl, rfl, rfl, rfl, rfl, rfl⟩

namespace Tools

/-- A tool-call argument value (the flat arguments object is JS-dynamic;
the orchestrator only ever builds string and number arguments). -/
inductive ArgVal where
  | str (v : String)
  | num (v : Int)
deriving DecidableEq, Repr

/-- A tool handler: receives the flat arguments object, yields a string or
fails (a rejected promise). -/
abbrev Handler := List (String × ArgVal) → Except String String

/-- One property of a tool parameter schema. -/
structure ParamProp where
  type : String
  description : String
deriving DecidableEq, Repr

/-- The parameter schema of a tool (`VapiToolDefinition["function"]["parameters"]`). -/
structure ToolParams where
  type : String := "object"
  properties : List (String × ParamProp)
  required : List String := []
deriving DecidableEq, Repr

/-- The spec accepted by `createAndRegisterTool` in `backend/tools.ts`:
handler supplied as source text. -/
structure ToolSpec where
  name : String
  description : String
  parameters : ToolParams
  handlerCode : String
deriving DecidableEq, Repr

/-- `RegisteredTool` of `backend/types.ts` as used by `backend/tools.ts`. -/
structure RegisteredTool where
  name : String
  description : String
  parameters : ToolParams
  handler : Handler
  createdAt : String
  isDynamic : Bool

/-- The in-memory registry: a `Map<string, RegisteredTool>` modelled as an
insertion-ordered association list with unique keys. -/
abbrev Registry := List (String × RegisteredTool)

/-- `Map.get`: first (unique) occurrence of the key. -/
def getTool (reg : Registry) (name : String) : Option RegisteredTool :=
  match reg with
  | [] => none
  | (k, t) :: rest => if k = name then some t else getTool rest name

/-- `getAllTools`: `Array.from(registry.values())` — insertion order. -/
def getAllTools (reg : Registry) : List RegisteredTool :=
  reg.map (fun p => p.2)

/-- `getDynamicTools`: values filtered by `isDynamic`. -/
def getDynamicTools (reg : Registry) : List RegisteredTool :=
  (getAllTools reg).filter (fun t => t.isDynamic)

/-- `Map.set`: overwrite in place when the key exists, append otherwise. -/
def registrySet : Registry → String → RegisteredTool → Registry
  | [], key, t => [(key, t)]
  | (k, w) :: rest, key, t =>
      if k = key then (key, t) :: rest else (k, w) :: registrySet rest key t

/-- `registerTool` (`backend/tools.ts` lines 21-26): `registry.set(tool.name, tool)`. -/
def registerTool (reg : Registry) (tool : RegisteredTool) : Registry :=
  registrySet reg tool.name tool

/-- `clearDynamicTools` (`backend/tools.ts` lines 28-35): iterate the map and
delete every entry whose tool is dynamic; order of survivors is preserved. -/
def clearDynamicTools (reg : Registry) : Registry :=
  reg.filter (fun p => !p.2.isDynamic)

/-- The pieces of process environment and external I/O that
`createAndRegisterTool` touches, as oracles for one run. -/
structure ToolsEnv where
  now : String
  vapiConfigured : Bool
  buildHandler : String → Except String Handler
  vapiSync : String → Except String Unit
  notifyOperator : String → Except String Unit

/-- `createAndRegisterTool` (`backend/tools.ts` lines 39-87): compile the
handler source (`buildHandler` — a synchronous throw there rejects before
anything is registered), register locally, then try to sync the tool to the
voice provider — that sync (`createVapiTool` + `addToolToAssistant`) runs
only when `VAPI_ASSISTANT_ID` and `SERVER_URL` are configured and its
failure is caught and logged, never propagated — and finally notify the
operator.  Returns the rejected/fulfilled result together with the registry
as left behind (a late rejection keeps the local registration). -/
def createAndRegisterTool (env : ToolsEnv) (reg : Registry) (spec : ToolSpec) :
    Except String RegisteredTool × Registry :=
  match env.buildHandler spec.handlerCode with
  | .error m => (.error m, reg)
  | .ok h =>
      let tool : RegisteredTool :=
        { name := spec.name, description := spec.description
          parameters := spec.parameters, handler := h
          createdAt := env.now, isDynamic := true }
      let reg' := registerTool reg tool
      let _sync := if env.vapiConfigured then env.vapiSync spec.name else Except.ok ()
      match env.notifyOperator
          ("New tool created: \"" ++ spec.name ++ "\" — " ++ spec.description) with
      | .error m => (.error m, reg')
      | .ok _ => (.ok tool, reg')

/-- Result of `sendWhatsApp` in `backend/integrations.ts`. -/
structure SendResult where
  sent : Bool
  id : Option String

/-- The trusted context handed to handlers: the integration wrappers of
`backend/integrations.ts`, as oracles. -/
structure Integrations where
  sendWhatsApp : String → String → Except String SendResult
  notifyOperator : String → Except String Unit
  triggerN8nWorkflow : List (String × ArgVal) → Except String String

/-- Read an argument as the string JS template interpolation would print. -/
def argStr (args : List (String × ArgVal)) (k : String) : String :=
  match List.lookup k args with
  | some (ArgVal.str s) => s
  | some (ArgVal.num n) => toString n
  | none => "undefined"

/-- JS `args.k || dflt`: the argument if truthy, the default otherwise. -/
def argOr (args : List (String × ArgVal)) (k : String) (dflt : String) : String :=
  match List.lookup k args with
  | some (ArgVal.str s) => if s.isEmpty then dflt else s
  | some (ArgVal.num n) => if n = 0 then dflt else toString n
  | none => dflt

/-- The simulated shipment-status lookup of the `check_shipment_status` seed
handler (`backend/tools.ts` lines 120-135). -/
def shipmentStatus (id : String) : String :=
  if id = "CONU1234567" then
    "Container CONU1234567: Cleared customs at Jebel Ali. In transit to Al Quoz warehouse. ETA 2 hours."
  else if id = "MSCU7654321" then
    "Container MSCU7654321: Arrived at Jebel Ali port. Pending customs inspection. ETA clearance: 4 hours."
  else if id = "BK20240001" then
    "Booking BK20240001: 2x 40ft containers. Vessel arrived. Discharge scheduled for tomorrow 0600."
  else
    "Shipment " ++ id ++ ": No record found. Please verify the ID or contact operations."

/-- Seed tool `check_shipment_status` (`backend/tools.ts` lines 106-138). -/
def checkShipmentStatusTool (now : String) : RegisteredTool :=
  { name := "check_shipment_status"
    description := "Check the current status of a shipment by container or booking ID"
    parameters :=
      { type := "object"
        properties := [("shipment_id",
          { type := "string", description := "Container number or booking reference" })]
        required := ["shipment_id"] }
    handler := fun args => Except.ok (shipmentStatus (argStr args "shipment_id"))
    createdAt := now, isDynamic := false }

/-- Seed tool `send_customer_whatsapp` (`backend/tools.ts` lines 140-163). -/
def sendCustomerWhatsappTool (io : Integrations) (now : String) : RegisteredTool :=
  { name := "send_customer_whatsapp"
    description := "Send a WhatsApp message to a customer with shipment updates or information"
    parameters :=
      { type := "object"
        properties :=
          [("phone", { type := "string", description := "Customer phone number with country code" }),
           ("message", { type := "string", description := "Message to send" })]
        required := ["phone", "message"] }
    handler := fun args =>
      match io.sendWhatsApp (argStr args "phone") (argStr args "message") with
      | Except.ok r =>
          Except.ok (if r.sent then
            "WhatsApp message sent successfully to " ++ argStr args "phone"
          else
            "Failed to send WhatsApp message to " ++ argStr args "phone")
      | Except.error m => Except.error m
    createdAt := now, isDynamic := false }

/-- Seed tool `send_email_notification` (`backend/tools.ts` lines 165-189). -/
def sendEmailNotificationTool (io : Integrations) (now : String) : RegisteredTool :=
  { name := "send_email_notification"
    description := "Send an email notification to a customer or internal team via n8n workflow"
    parameters :=
      { type := "object"
        properties :=
          [("to", { type := "string", description := "Recipient email address" }),
           ("subject", { type := "string", description := "Email subject" }),
           ("body", { type := "string", description := "Email body text" })]
        required := ["to", "subject", "body"] }
    handler := fun args =>
      match io.triggerN8nWorkflow
          ([("type", ArgVal.str "send_email")] ++
           (args.filter (fun p => p.1 = "to" ∨ p.1 = "subject" ∨ p.1 = "body"))) with
      | Except.ok result =>
          Except.ok ("Email workflow triggered for " ++ argStr args "to" ++ ". Result: " ++ result)
      | Except.error m => Except.error m
    createdAt := now, isDynamic := false }

/-- Seed tool `escalate_to_operator` (`backend/tools.ts` lines 191-214). -/
def escalateToOperatorTool (io : Integrations) (now : String) : RegisteredTool :=
  { name := "escalate_to_operator"
    description := "Escalate an issue to a human operator via WhatsApp when the agent cannot handle it"
    parameters :=
      { type := "object"
        properties :=
          [("reason", { type := "string", description := "Why this needs human attention" }),
           ("context", { type := "string", description := "Relevant details (customer info, shipment ID, etc.)" })]
        required := ["reason"] }
    handler := fun args =>
      match io.notifyOperator
          ("⚠️ ESCALATION: " ++ argStr args "reason" ++ "\nContext: " ++ argOr args "context" "none") with
      | Except.ok _ => Except.ok "Escalated to operator. They will follow up shortly."
      | Except.error m => Except.error m
    createdAt := now, isDynamic := false }

/-- `seedTools` (`backend/tools.ts` lines 105-218): the four seed
registrations performed at process start, in order. -/
def seedTools (io : Integrations) (now : String) : Registry :=
  registerTool
    (registerTool
      (registerTool
        (registerTool [] (checkShipmentStatusTool now))
        (sendCustomerWhatsappTool io now))
      (sendEmailNotificationTool io now))
    (escalateToOperatorTool io now)

/-- Looking up a name right after `registrySet` of that name yields the new
value. -/
theorem getTool_registrySet (reg : Registry) (key : String) (t : RegisteredTool) :
    getTool (registrySet reg key t) key = some t := by
  induction reg with
  | nil => simp [registrySet, getTool]
  | cons hd tl ih =>
      by_cases hk : hd.1 = key
      · simp [registrySet, hk, getTool]
      · simp [registrySet, hk, getTool, ih]

/-- `registrySet` on an existing key never changes the number of entries. -/
theorem length_registrySet_of_isSome (reg : Registry) (key : String)
    (t : RegisteredTool) (h : (getTool reg key).isSome) :
    (registrySet reg key t).length = reg.length := by
  induction reg with
  | nil => simp [getTool] at h
  | cons hd tl ih =>
      by_cases hk : hd.1 = key
      · simp [registrySet, hk]
      · simp [getTool, hk] at h
        simp [registrySet, hk, ih h]

end Tools

/-- C5: registering a capability whose name already exists overwrites the
existing entry — `getTool` afterwards returns exactly the new definition and
the registry has gained no entry (last-write-wins, no versioning). -/
theorem c5_register_overwrites (reg : Tools.Registry) (t : Tools.RegisteredTool)
    (h : (Tools.getTool reg t.name).isSome) :
    Tools.getTool (Tools.registerTool reg t) t.name = some t ∧
    (Tools.registerTool reg t).length = reg.length :=
  ⟨Tools.getTool_registrySet reg t.name t,
   Tools.length_registrySet_of_isSome reg t.name t h⟩

/-- A dummy old registered tool used by the registry witnesses. -/
def oldEchoTool : Tools.RegisteredTool :=
  { name := "echo", description := "old"
    parameters := { type := "object", properties := [], required := [] }
    handler := fun _ => Except.ok "old", createdAt := "t0", isDynamic := false }

/-- A dummy replacement tool with the same name. -/
def newEchoTool : Tools.RegisteredTool :=
  { name := "echo", description := "new"
    parameters := { type := "object", properties := [], required := [] }
    handler := fun _ => Except.ok "new", createdAt := "t1", isDynamic := true }

/-- Witness for C5 at a concrete one-entry registry. -/
theorem c5_register_overwrites_witness :
    (Tools.getTool [("echo", oldEchoTool)] "echo").isSome = true ∧
    (Tools.getTool (Tools.registerTool [("echo", oldEchoTool)] newEchoTool) "echo"
        = some newEchoTool ∧
      (Tools.registerTool [("echo", oldEchoTool)] newEchoTool).length
        = [("echo", oldEchoTool)].length) :=
  ⟨rfl, c5_register_overwrites [("echo", oldEchoTool)] newEchoTool (by rfl)⟩

/-- C6: after `clearDynamicTools` the registry holds exactly the entries it
held before whose origin is seed (`isDynamic = false`): every synthesized
entry is removed, no seed entry is removed, and nothing new appears. -/
theorem c6_clearDynamic_exactly_seed (reg : Tools.Registry)
    (p : String × Tools.RegisteredTool) :
    p ∈ Tools.clearDynamicTools reg ↔ p ∈ reg ∧ p.2.isDynamic = false := by
  simp [Tools.clearDynamicTools, List.mem_filter]

/-- Witness for C6: a seed entry survives `clearDynamicTools` and a dynamic
entry does not, on a concrete two-entry registry. -/
theorem c6_clearDynamic_exactly_seed_witness :
    ("echo", oldEchoTool) ∈
        Tools.clearDynamicTools [("echo", oldEchoTool), ("dyn", newEchoTool)] ∧
    ("dyn", newEchoTool) ∉
        Tools.clearDynamicTools [("echo", oldEchoTool), ("dyn", newEchoTool)] := by
  constructor
  · exact (c6_clearDynamic_exactly_seed _ _).mpr ⟨List.Mem.head _, rfl⟩
  · intro hmem
    have h := ((c6_clearDynamic_exactly_seed
      [("echo", oldEchoTool), ("dyn", newEchoTool)] ("dyn", newEchoTool)).mp hmem).2
    simp [newEchoTool] at h

/-- C10: when the handler source compiles and the operator notification goes
through, `createAndRegisterTool` succeeds and the capability is present in
the local registry even though the provider-side sync
(`createVapiTool`/`addToolToAssistant`) failed — that failure is caught
inside `createAndRegisterTool` and never propagated. -/
theorem c10_createTool_local_despite_sync_failure (env : Tools.ToolsEnv)
    (reg : Tools.Registry) (spec : Tools.ToolSpec) (h : Tools.Handler) (e : String)
    (hBuild : env.buildHandler spec.handlerCode = Except.ok h)
    (hNotify : ∀ m, env.notifyOperator m = Except.ok ())
    (hConfigured : env.vapiConfigured = true)
    (hSyncFails : env.vapiSync spec.name = Except.error e) :
    (Tools.createAndRegisterTool env reg spec).1 =
      Except.ok { name := spec.name, description := spec.description
                  parameters := spec.parameters, handler := h
                  createdAt := env.now, isDynamic := true } ∧
    Tools.getTool (Tools.createAndRegisterTool env reg spec).2 spec.name =
      some { name := spec.name, description := spec.description
             parameters := spec.parameters, handler := h
             createdAt := env.now, isDynamic := true } := by
  constructor
  · simp [Tools.createAndRegisterTool, hBuild, hNotify]
  · simp [Tools.createAndRegisterTool, hBuild, hNotify]
    exact Tools.getTool_registrySet reg spec.name _

/-- A concrete environment whose provider-side sync always fails. -/
def toolsEnvSyncFails : Tools.ToolsEnv :=
  { now := "t2", vapiConfigured := true
    buildHandler := fun _ => Except.ok (fun _ => Except.ok "ran")
    vapiSync := fun _ => Except.error "vapi 500"
    notifyOperator := fun _ => Except.ok () }

/-- A concrete dynamic tool spec used by the pipeline witnesses. -/
def lookupOrderSpec : Tools.ToolSpec :=
  { name := "lookup_order", description := "Look up an order"
    parameters :=
      { type := "object"
        properties := [("order_id", { type := "string", description := "Order id" })]
        required := ["order_id"] }
    handlerCode := "return \"ok\"" }

/-- Witness for C10 at a concrete environment, spec and empty registry. -/
theorem c10_createTool_local_despite_sync_failure_witness :
    (Tools.createAndRegisterTool toolsEnvSyncFails [] lookupOrderSpec).1 =
      Except.ok { name := "lookup_order", description := "Look up an order"
                  parameters := lookupOrderSpec.parameters
                  handler := fun _ => Except.ok "ran"
                  createdAt := "t2", isDynamic := true } ∧
    Tools.getTool (Tools.createAndRegisterTool toolsEnvSyncFails [] lookupOrderSpec).2
        "lookup_order" =
      some { name := "lookup_order", description := "Look up an order"
             parameters := lookupOrderSpec.parameters
             handler := fun _ => Except.ok "ran"
             createdAt := "t2", isDynamic := true } :=
  c10_createTool_local_despite_sync_failure toolsEnvSyncFails [] lookupOrderSpec
    (fun _ => Except.ok "ran") "vapi 500" rfl (fun _ => rfl) rfl rfl

namespace SelfImprove

/-- One HTTP step of a workflow spec (`backend/self-improve.ts`, the
`newWorkflows` item shape of `AnalysisResult`). -/
structure WorkflowStep where
  name : String
  method : String
  url : String
  headers : Option (List (String × String)) := none
  bodyTemplate : String
deriving DecidableEq, Repr

/-- A workflow spec requested by the analysis (`newWorkflows` item).  An
absent `steps` array is modelled as the empty list: the pipeline only ever
asks whether `wf.steps?.length` is truthy. -/
structure WorkflowSpec where
  type : String := "custom"
  name : String
  webhookPath : String
  steps : List WorkflowStep := []
deriving DecidableEq, Repr

/-- `AnalysisResult` (`backend/self-improve.ts`, part_010 lines 385-412):
the structured output of the reasoning call.  Absent optional fields are
`none`; every consumer reads them with `?.`, so `none` behaves as the empty
list. -/
structure AnalysisResult where
  failures : List String
  changes : List String
  configChanges : AssistantConfig
  newTools : Option (List Tools.ToolSpec) := none
  newWorkflows : Option (List WorkflowSpec) := none
  resourceRequests : Option (List String) := none

/-- The fallback `AnalysisResult` built when `JSON.parse` of the cleaned
reasoning output throws (part_010 lines 557-567). -/
def parseFallback (currentPrompt : String) : AnalysisResult :=
  { failures := ["Could not parse analysis output"]
    changes := ["No changes made — parse error"]
    configChanges := { systemMessage := some currentPrompt } }

/-- `analyzeTranscriptWithRaw` (part_010 lines 414-568), after the external
reasoning call: the structural decode of the response text is an oracle
(`decoded`; `none` models a `JSON.parse` failure on the cleaned text), and
on decode failure the fixed fallback is returned together with the raw
text. -/
def analyzeTranscriptWithRaw (decoded : Option AnalysisResult) (raw : String)
    (currentPrompt : String) : AnalysisResult × String :=
  match decoded with
  | some parsed => (parsed, raw)
  | none => (parseFallback currentPrompt, raw)

end SelfImprove

/-- C2 counterexample: on decode failure the failures list is not the single
entry "could not parse output" — the code uses a different fixed string. -/
theorem c2_parse_failure_string_differs :
    (SelfImprove.analyzeTranscriptWithRaw none "not json" "You help.").1.failures
      ≠ ["could not parse output"] := by
  decide

/-- C2 amended: on decode failure the returned change-set is exactly the
fixed fallback — its failures list is the single entry
"Could not parse analysis output", its configChanges keeps the current
instructions text unchanged, and its capability, automation and
resource-request lists are absent, which every consumer treats as empty; no
partially decoded change-set is returned. -/
theorem c2_parse_failure_fallback (raw currentPrompt : String) :
    (SelfImprove.analyzeTranscriptWithRaw none raw currentPrompt).1.failures
        = ["Could not parse analysis output"] ∧
    (SelfImprove.analyzeTranscriptWithRaw none raw
        currentPrompt).1.configChanges.systemMessage = some currentPrompt ∧
    ((SelfImprove.analyzeTranscriptWithRaw none raw
        currentPrompt).1.newTools.getD []) = [] ∧
    ((SelfImprove.analyzeTranscriptWithRaw none raw
        currentPrompt).1.newWorkflows.getD []) = [] ∧
    ((SelfImprove.analyzeTranscriptWithRaw none raw
        currentPrompt).1.resourceRequests.getD []) = [] ∧
    (SelfImprove.analyzeTranscriptWithRaw none raw currentPrompt).2 = raw :=
  ⟨rfl, rfl, rfl, rfl, rfl, rfl⟩

/-- JavaScript truthiness of an optional string (`if (x)` on a
`string | undefined`). -/
def truthyStr : Option String → Bool
  | none => false
  | some s => !s.isEmpty

namespace SelfImprove

/-- Status of one pipeline step (`PipelineStep["status"]`). -/
inductive StepStatus where
  | ok
  | error
  | skipped
deriving DecidableEq, Repr

/-- `PipelineStep` (part_010 lines 17-22). -/
structure PipelineStep where
  step : String
  status : StepStatus
  detail : String
  timestamp : String
deriving DecidableEq, Repr

/-- `ImprovementRecord` (part_010 lines 24-38). -/
structure ImprovementRecord where
  callId : String
  customerNumber : Option String
  timestamp : String
  transcript : Option String
  failures : List String
  changes : List String
  toolsCreated : List String
  workflowsCreated : List String
  configBefore : List (String × JVal)
  configAfter : AssistantConfig
  callbackTriggered : Bool
  rawAnalysis : Option String
  pipelineLog : List PipelineStep
deriving Inhabited

/-- What `getCall` returns, as consumed by the pipeline.  The transcript is
optional: the code reads it with `call.transcript?.`. -/
structure CallInfo where
  transcript : Option String
  status : String
  endedReason : Option String

/-- What `getAssistant` returns: the extracted system message and the raw
profile document. -/
structure AssistantInfo where
  systemMessage : String
  config : List (String × JVal)

/-- The process-local mutable state the pipeline touches: the tool registry
and the improvement history. -/
structure SysState where
  registry : Tools.Registry
  history : List ImprovementRecord

/-- Oracles for the external calls one pipeline run performs, in addition to
the `ToolsEnv` oracles used by `createAndRegisterTool`. -/
structure Env where
  tools : Tools.ToolsEnv
  getCall : Except String CallInfo
  getAssistantFetch : Except String AssistantInfo
  analyze : Except String (AnalysisResult × String)
  updAssistant : Except String Unit
  n8nConfigured : Bool
  createCustomWorkflow : WorkflowSpec → Except String String
  getAssistantVerify : Except String AssistantInfo
  createOutboundCall : Except String String

/-- `logStep` (part_010 lines 168-173): build one log entry. -/
def mkStep (step : String) (status : StepStatus) (detail ts : String) : PipelineStep :=
  { step := step, status := status, detail := detail, timestamp := ts }

/-- The synthetic smoke-test arguments (part_010 lines 248-251): the string
"test" for every string-typed property of the declared schema, 0 for every
other property. -/
def mkTestArgs (params : Tools.ToolParams) : List (String × Tools.ArgVal) :=
  params.properties.map (fun kp =>
    (kp.1, if kp.2.type = "string" then Tools.ArgVal.str "test" else Tools.ArgVal.num 0))

/-- The wiring tool minted for a deployed workflow (part_010 lines 285-299):
fixed `{to, message}` schema, handler source POSTing to the webhook URL. -/
def wiringToolSpec (wfName toolName url : String) : Tools.ToolSpec :=
  { name := toolName
    description := wfName ++ " — triggers n8n workflow via webhook"
    parameters :=
      { type := "object"
        properties :=
          [("to", { type := "string", description := "Recipient phone number or identifier" }),
           ("message", { type := "string", description := "Message content to send" })]
        required := ["to", "message"] }
    handlerCode :=
      "const res = await ctx.fetch(\"" ++ url ++
      "\", \x7b method: \"POST\", headers: \x7b \"Content-Type\": \"application/json\" \x7d, body: JSON.stringify(\x7b to: args.to, message: args.message \x7d) \x7d); const data = await res.json(); return JSON.stringify(data);" }

/-- The per-item tool-creation loop of the pipeline (part_010 lines
240-260): each item is created and registered best-effort, then immediately
smoke-tested by invoking its handler once on the synthetic arguments; a
failed creation or smoke test is logged as an error step and the loop
continues.  Returns the registry left behind, the created names in push
order, and the emitted log entries. -/
def runTools (env : Env) :
    Tools.Registry → List Tools.ToolSpec →
      Tools.Registry × List String × List PipelineStep
  | reg, [] => (reg, [], [])
  | reg, spec :: rest =>
      let s1 := mkStep "create_tool" StepStatus.ok
        ("Creating tool: \"" ++ spec.name ++ "\" — " ++ spec.description) env.tools.now
      match Tools.createAndRegisterTool env.tools reg spec with
      | (Except.ok tool, reg') =>
          let smoke :=
            match tool.handler (mkTestArgs spec.parameters) with
            | Except.ok output =>
                mkStep "test_tool" StepStatus.ok
                  ("Tool \"" ++ spec.name ++ "\" smoke test passed: " ++ output.take 100)
                  env.tools.now
            | Except.error m =>
                mkStep "test_tool" StepStatus.error
                  ("Tool \"" ++ spec.name ++ "\" smoke test failed: " ++ m) env.tools.now
          let r := runTools env reg' rest
          (r.1, spec.name :: r.2.1, s1 :: smoke :: r.2.2)
      | (Except.error m, reg') =>
          let sE := mkStep "create_tool" StepStatus.error
            ("Failed to create tool \"" ++ spec.name ++ "\": " ++ m) env.tools.now
          let r := runTools env reg' rest
          (r.1, r.2.1, s1 :: sE :: r.2.2)

/-- The global dash-to-underscore replace applied to `wf.webhookPath`
(part_010 line 285); the pattern is a single character, so a character map
is the same function. -/
def dashesToUnderscores (s : String) : String :=
  String.mk (s.data.map (fun c => if c = '-' then '_' else c))

/-- The per-item workflow-deployment loop (part_010 lines 268-305): an item
with no steps is skipped; a deployed workflow is recorded in
`workflowsCreated` and then wired to a freshly synthesized tool named after
its webhook path; that wiring tool is registered without any smoke test; a
failure of either the deployment or the wiring is logged as an error step
and the loop continues.  Returns registry, wired tool names, workflow
entries and log entries. -/
def runWorkflows (env : Env) :
    Tools.Registry → List WorkflowSpec →
      Tools.Registry × List String × List String × List PipelineStep
  | reg, [] => (reg, [], [], [])
  | reg, wf :: rest =>
      if wf.steps.isEmpty then
        let s := mkStep "create_workflow" StepStatus.skipped
          ("Workflow \"" ++ wf.name ++ "\" has no steps") env.tools.now
        let r := runWorkflows env reg rest
        (r.1, r.2.1, r.2.2.1, s :: r.2.2.2)
      else
        let s1 := mkStep "create_workflow" StepStatus.ok
          ("Creating n8n workflow: \"" ++ wf.name ++ "\" (" ++
            toString wf.steps.length ++ " steps)") env.tools.now
        match env.createCustomWorkflow wf with
        | Except.error m =>
            let sE := mkStep "create_workflow" StepStatus.error
              ("Failed: \"" ++ wf.name ++ "\": " ++ m) env.tools.now
            let r := runWorkflows env reg rest
            (r.1, r.2.1, r.2.2.1, s1 :: sE :: r.2.2.2)
        | Except.ok webhookUrl =>
            let s2 := mkStep "create_workflow" StepStatus.ok
              ("Workflow \"" ++ wf.name ++ "\" deployed: " ++ webhookUrl) env.tools.now
            let toolName := dashesToUnderscores wf.webhookPath
            let s3 := mkStep "wire_workflow_to_vapi" StepStatus.ok
              ("Creating Vapi tool \"" ++ toolName ++ "\" → " ++ webhookUrl) env.tools.now
            match Tools.createAndRegisterTool env.tools reg
                (wiringToolSpec wf.name toolName webhookUrl) with
            | (Except.ok _, reg') =>
                let s4 := mkStep "wire_workflow_to_vapi" StepStatus.ok
                  ("Vapi tool \"" ++ toolName ++ "\" created and attached to assistant")
                  env.tools.now
                let r := runWorkflows env reg' rest
                (r.1, toolName :: r.2.1, (wf.name ++ " → " ++ webhookUrl) :: r.2.2.1,
                 s1 :: s2 :: s3 :: s4 :: r.2.2.2)
            | (Except.error m, reg') =>
                let sE := mkStep "create_workflow" StepStatus.error
                  ("Failed: \"" ++ wf.name ++ "\": " ++ m) env.tools.now
                let r := runWorkflows env reg' rest
                (r.1, r.2.1, (wf.name ++ " → " ++ webhookUrl) :: r.2.2.1,
                 s1 :: s2 :: s3 :: sE :: r.2.2.2)

/-- The resource-request fan-out (part_010 lines 315-320): each request is
sent to the operator with an awaited, uncaught call — a rejection there
aborts the run. -/
def runResourceRequests (env : Env) : List String → Except String (List PipelineStep)
  | [] => Except.ok []
  | r :: rest =>
      match env.tools.notifyOperator ("🔑 RESOURCE REQUEST: " ++ r) with
      | Except.error m => Except.error m
      | Except.ok _ =>
          match runResourceRequests env rest with
          | Except.error m => Except.error m
          | Except.ok steps =>
              Except.ok (mkStep "resource_request" StepStatus.ok r env.tools.now :: steps)

/-- Length of `config.model.toolIds` as read by the final verification step
(part_010 lines 324-327). -/
def modelToolIdsCount (config : List (String × JVal)) : Nat :=
  match asObj (getField config "model") with
  | some m =>
      match getField m "toolIds" with
      | some (JVal.arr ids) => ids.length
      | _ => 0
  | none => 0

/-- The keys of a partial config, used only in the `update_assistant` log
detail (`Object.keys(analysis.configChanges)`); the interface declaration
order stands in for the unknowable JSON insertion order. -/
def configChangesKeys (c : AssistantConfig) : List String :=
  (match c.systemMessage with | some _ => ["systemMessage"] | none => []) ++
  (match c.maxTokens with | some _ => ["maxTokens"] | none => []) ++
  (match c.firstMessage with | some _ => ["firstMessage"] | none => []) ++
  (match c.voiceSpeed with | some _ => ["voiceSpeed"] | none => []) ++
  (match c.silenceTimeoutSeconds with | some _ => ["silenceTimeoutSeconds"] | none => []) ++
  (match c.maxDurationSeconds with | some _ => ["maxDurationSeconds"] | none => []) ++
  (match c.messagePlan with | some _ => ["messagePlan"] | none => []) ++
  (match c.toolIds with | some _ => ["toolIds"] | none => [])

/-- The consolidated operator summary sent after the record is persisted
(part_010 lines 350-360). -/
def summaryMessage (callId : String) (analysis : AnalysisResult)
    (toolsCreated workflowsCreated : List String) (customerNumber : Option String) :
    String :=
  String.intercalate "\n"
    (["🧠 Self-improvement complete (call " ++ callId ++ ")",
      "",
      "Failures: " ++ String.intercalate "\n" (analysis.failures.map (fun f => "❌ " ++ f)),
      "Changes: " ++ String.intercalate "\n" (analysis.changes.map (fun c => "✅ " ++ c))] ++
     (if toolsCreated.isEmpty then []
      else ["Tools: " ++ String.intercalate ", " toolsCreated]) ++
     (if workflowsCreated.isEmpty then []
      else ["Workflows: " ++ String.intercalate ", " workflowsCreated]) ++
     [if truthyStr customerNumber then "Calling customer back..."
      else "No customer number — skipping callback."])

/-- `analyzeAndImprove` (part_010 lines 175-381), the full pipeline run as a
function of the external-call oracles and the process-local state.  Control
flow notes, matching the source: a `getCall` rejection is logged and
rethrown; the `getAssistant` fetch is not wrapped, so its rejection
propagates; both leave the state untouched.  The analysis call is fatal too.
Config update, per-item tool creation (with nested smoke test) and per-item
workflow deployment are best-effort.  Resource-request and summary operator
notifications are awaited uncaught, so their rejection aborts the run — at
those points registry mutations (and, after the push, the history entry)
survive.  The record is pushed to `history` before the callback step and
then mutated in place (`record.callbackTriggered`, the shared `log` array),
so each exit returns the history entry with the fields as of that exit. -/
def analyzeAndImprove (env : Env) (st : SysState) (callId : String)
    (customerNumber : Option String) : Except String ImprovementRecord × SysState :=
  let now := env.tools.now
  let log0 := [mkStep "fetch_transcript" StepStatus.ok
    ("Fetching call " ++ callId ++ " from Vapi...") now]
  match env.getCall with
  | Except.error m => (Except.error m, st)
  | Except.ok call =>
  let log1 := log0 ++
    [mkStep "fetch_transcript" StepStatus.ok
      ("Got transcript (" ++ toString ((call.transcript.map String.length).getD 0) ++
       " chars), status=" ++ call.status ++ ", ended=" ++ call.endedReason.getD "undefined")
      now,
     mkStep "fetch_assistant" StepStatus.ok "Fetching current assistant config..." now]
  match env.getAssistantFetch with
  | Except.error m => (Except.error m, st)
  | Except.ok assistant =>
  let existingTools := Tools.getAllTools st.registry
  let toolNamesJoined := String.intercalate ", " (existingTools.map (fun t => t.name))
  let log2 := log1 ++
    [mkStep "fetch_assistant" StepStatus.ok
      ("Current prompt: " ++ assistant.systemMessage.take 80 ++ "...") now,
     mkStep "check_tools" StepStatus.ok
      (toString existingTools.length ++ " existing tools: " ++
       (if toolNamesJoined.isEmpty then "none" else toolNamesJoined)) now,
     mkStep "transcript_preview" StepStatus.ok
      (match call.transcript with
        | some t => if t.isEmpty then "(empty)" else t.take 300
        | none => "(empty)") now,
     mkStep "ai_analysis" StepStatus.ok "Sending transcript to Claude for analysis..." now]
  match env.analyze with
  | Except.error m => (Except.error m, st)
  | Except.ok (analysis, rawAnalysisText) =>
  let log3 := log2 ++
    [mkStep "ai_analysis" StepStatus.ok
      ("Claude identified " ++ toString analysis.failures.length ++ " failures, " ++
       toString analysis.changes.length ++ " changes, " ++
       toString (analysis.newTools.getD []).length ++ " new tools, " ++
       toString (analysis.newWorkflows.getD []).length ++ " new workflows") now,
     mkStep "update_assistant" StepStatus.ok
      "Applying config changes to Vapi assistant (prompt, maxTokens, voice, etc.)..." now]
  let log4 := log3 ++
    [match env.updAssistant with
      | Except.ok _ =>
          mkStep "update_assistant" StepStatus.ok
            ("Updated: " ++ String.intercalate ", " (configChangesKeys analysis.configChanges))
            now
      | Except.error m =>
          mkStep "update_assistant" StepStatus.error
            ("Failed to update assistant: " ++ m) now]
  let newToolsList := analysis.newTools.getD []
  let toolsPhase :=
    if newToolsList.isEmpty then
      (st.registry, ([], [mkStep "create_tool" StepStatus.skipped
        "No new tools requested by analysis" now]))
    else
      let r := runTools env st.registry newToolsList
      (r.1, (r.2.1, r.2.2))
  let reg1 := toolsPhase.1
  let toolsCreated1 := toolsPhase.2.1
  let log5 := log4 ++ toolsPhase.2.2
  let newWorkflowsList := analysis.newWorkflows.getD []
  let wfPhase :=
    if newWorkflowsList.isEmpty then
      (reg1, (([] : List String), (([] : List String),
        ([mkStep "create_workflow" StepStatus.skipped
          "No new workflows requested by analysis" now],
         analysis.resourceRequests.getD []))))
    else if env.n8nConfigured then
      let r := runWorkflows env reg1 newWorkflowsList
      (r.1, (r.2.1, (r.2.2.1, (r.2.2.2, analysis.resourceRequests.getD []))))
    else
      (reg1, (([] : List String), (([] : List String),
        ([mkStep "create_workflow" StepStatus.error
          "n8n not configured (N8N_API_URL or N8N_API_KEY missing) — cannot create workflows"
          now],
         analysis.resourceRequests.getD [] ++
           ["Need N8N_API_URL and N8N_API_KEY to create workflows programmatically"]))))
  let reg2 := wfPhase.1
  let toolsCreated := toolsCreated1 ++ wfPhase.2.1
  let workflowsCreated := wfPhase.2.2.1
  let log6 := log5 ++ wfPhase.2.2.2.1
  let resourceRequests := wfPhase.2.2.2.2
  match runResourceRequests env resourceRequests with
  | Except.error m => (Except.error m, { registry := reg2, history := st.history })
  | Except.ok resSteps =>
  let log7 := log6 ++ resSteps
  let log8 := log7 ++
    [match env.getAssistantVerify with
      | Except.ok updated =>
          mkStep "verify_assistant" StepStatus.ok
            ("Assistant published with " ++ toString (modelToolIdsCount updated.config) ++
             " tools attached. Prompt length: " ++
             toString updated.systemMessage.length ++ " chars") now
      | Except.error _ =>
          mkStep "verify_assistant" StepStatus.error
            "Could not verify final assistant state" now]
  let record0 : ImprovementRecord :=
    { callId := callId, customerNumber := customerNumber, timestamp := now
      transcript := call.transcript, failures := analysis.failures
      changes := analysis.changes, toolsCreated := toolsCreated
      workflowsCreated := workflowsCreated, configBefore := assistant.config
      configAfter := analysis.configChanges, callbackTriggered := false
      rawAnalysis := some rawAnalysisText, pipelineLog := log8 }
  match env.tools.notifyOperator
      (summaryMessage callId analysis toolsCreated workflowsCreated customerNumber) with
  | Except.error m =>
      (Except.error m, { registry := reg2, history := st.history ++ [record0] })
  | Except.ok _ =>
  if truthyStr customerNumber then
    let n := customerNumber.getD ""
    let log9 := log8 ++ [mkStep "callback" StepStatus.ok
      ("Triggering callback to " ++ n ++ "...") now]
    match env.createOutboundCall with
    | Except.ok callbackId =>
        let logA := log9 ++ [mkStep "callback" StepStatus.ok
          ("Callback initiated: " ++ callbackId) now]
        let rec1 := { record0 with callbackTriggered := true, pipelineLog := logA }
        (Except.ok rec1, { registry := reg2, history := st.history ++ [rec1] })
    | Except.error m =>
        let logA := log9 ++ [mkStep "callback" StepStatus.error
          ("Callback failed: " ++ m) now]
        let recE := { record0 with pipelineLog := logA }
        match env.tools.notifyOperator
            ("⚠️ Failed to call customer back at " ++ n ++ ": " ++ m) with
        | Except.error m2 =>
            (Except.error m2, { registry := reg2, history := st.history ++ [recE] })
        | Except.ok _ =>
            (Except.ok recE, { registry := reg2, history := st.history ++ [recE] })
  else
    let logA := log8 ++ [mkStep "callback" StepStatus.skipped
      "No customer number available" now]
    let recS := { record0 with pipelineLog := logA }
    (Except.ok recS, { registry := reg2, history := st.history ++ [recS] })

end SelfImprove

/-- C3: when fetching the call (`getCall`) or the profile (`getAssistant`)
fails, the pipeline run aborts with that error propagated to the caller and
the process-local state — in particular the improvement history and its
length — is unchanged: no ImprovementRecord is appended. -/
theorem c3_fatal_fetch_aborts (env : SelfImprove.Env) (st : SelfImprove.SysState)
    (callId : String) (cn : Option String) (m : String)
    (h : env.getCall = Except.error m ∨
      (∃ c, env.getCall = Except.ok c ∧ env.getAssistantFetch = Except.error m)) :
    (SelfImprove.analyzeAndImprove env st callId cn).1 = Except.error m ∧
    (SelfImprove.analyzeAndImprove env st callId cn).2 = st ∧
    (SelfImprove.analyzeAndImprove env st callId cn).2.history.length
      = st.history.length := by
  rcases h with h | ⟨c, hc, ha⟩
  · simp [SelfImprove.analyzeAndImprove, h]
  · simp [SelfImprove.analyzeAndImprove, hc, ha]

/-- A concrete one-step workflow spec. -/
def wfStepW : SelfImprove.WorkflowStep :=
  { name := "Send via Whapi", method := "POST"
    url := "https://gate.whapi.cloud/messages/text"
    headers := some [("Authorization", "Bearer TOKEN"), ("Content-Type", "application/json")]
    bodyTemplate := "=to and message from the trigger payload" }

/-- A concrete workflow spec whose webhook path is `send-customer-whatsapp`. -/
def wfSpecW : SelfImprove.WorkflowSpec :=
  { type := "custom", name := "Send Customer WhatsApp"
    webhookPath := "send-customer-whatsapp", steps := [wfStepW] }

/-- A concrete analysis result requesting one workflow and no direct tools. -/
def analysisWf : SelfImprove.AnalysisResult :=
  { failures := ["Agent could not send WhatsApp"]
    changes := ["Added WhatsApp workflow"]
    configChanges := { systemMessage := some "New prompt" }
    newWorkflows := some [wfSpecW] }

/-- A concrete pipeline environment where every external call succeeds and
the analysis requests the workflow above. -/
def pipelineEnvOk : SelfImprove.Env :=
  { tools :=
      { now := "T0", vapiConfigured := false
        buildHandler := fun _ => Except.ok (fun _ => Except.ok "ran")
        vapiSync := fun _ => Except.ok ()
        notifyOperator := fun _ => Except.ok () }
    getCall := Except.ok
      { transcript := some "Caller: send me a WhatsApp update"
        status := "ended", endedReason := some "customer-ended-call" }
    getAssistantFetch := Except.ok
      { systemMessage := "You help with shipments.", config := liveProfileC1 }
    analyze := Except.ok (analysisWf, "RAW")
    updAssistant := Except.ok ()
    n8nConfigured := true
    createCustomWorkflow := fun _ =>
      Except.ok "https://n8n.example.com/webhook/send-customer-whatsapp"
    getAssistantVerify := Except.ok
      { systemMessage := "New prompt", config := liveProfileC1 }
    createOutboundCall := Except.ok "call-2" }

/-- The empty initial state used by the pipeline witnesses. -/
def st0 : SelfImprove.SysState := { registry := [], history := [] }

/-- Witness for C3 at a concrete environment whose `getCall` rejects. -/
theorem c3_fatal_fetch_aborts_witness :
    (SelfImprove.analyzeAndImprove
        { pipelineEnvOk with getCall := Except.error "boom" } st0 "call-1" none).1
      = Except.error "boom" ∧
    (SelfImprove.analyzeAndImprove
        { pipelineEnvOk with getCall := Except.error "boom" } st0 "call-1" none).2 = st0 ∧
    (SelfImprove.analyzeAndImprove
        { pipelineEnvOk with getCall := Except.error "boom" } st0 "call-1"
        none).2.history.length = st0.history.length :=
  c3_fatal_fetch_aborts _ st0 "call-1" none "boom" (Or.inl rfl)

/-- C4: when the reasoning output requests two capabilities and synthesis
(the handler compile inside `createAndRegisterTool`) fails for exactly one
of them while every other step succeeds, the run still completes, persists
exactly one ImprovementRecord whose toolsCreated contains the surviving
capability, and the step log carries a `create_tool` error entry naming the
failed item. -/
theorem c4_per_item_synthesis_failure_continues
    (env : SelfImprove.Env) (st : SelfImprove.SysState) (callId : String)
    (call : SelfImprove.CallInfo) (assistant assistant2 : SelfImprove.AssistantInfo)
    (analysis : SelfImprove.AnalysisResult) (raw : String)
    (sF sS : Tools.ToolSpec) (eA out : String) (hS : Tools.Handler)
    (hCall : env.getCall = Except.ok call)
    (hAsst : env.getAssistantFetch = Except.ok assistant)
    (hAnalyze : env.analyze = Except.ok (analysis, raw))
    (hPair : analysis.newTools = some [sF, sS] ∨ analysis.newTools = some [sS, sF])
    (hWf : analysis.newWorkflows.getD [] = [])
    (hRes : analysis.resourceRequests.getD [] = [])
    (hUpd : env.updAssistant = Except.ok ())
    (hVerify : env.getAssistantVerify = Except.ok assistant2)
    (hNotify : ∀ s, env.tools.notifyOperator s = Except.ok ())
    (hFail : env.tools.buildHandler sF.handlerCode = Except.error eA)
    (hOk : env.tools.buildHandler sS.handlerCode = Except.ok hS)
    (hSmoke : hS (SelfImprove.mkTestArgs sS.parameters) = Except.ok out) :
    ∃ rec, (SelfImprove.analyzeAndImprove env st callId none).1 = Except.ok rec ∧
      (SelfImprove.analyzeAndImprove env st callId none).2.history
        = st.history ++ [rec] ∧
      sS.name ∈ rec.toolsCreated ∧
      ∃ entry ∈ rec.pipelineLog, entry.step = "create_tool" ∧
        entry.status = SelfImprove.StepStatus.error ∧
        entry.detail = "Failed to create tool \"" ++ sF.name ++ "\": " ++ eA := by
  rcases hPair with h | h <;>
  · refine ⟨((SelfImprove.analyzeAndImprove env st callId none).1).toOption.getD
      default, ?_, ?_, ?_, ?_⟩ <;>
    simp [SelfImprove.analyzeAndImprove, SelfImprove.runTools,
      SelfImprove.runResourceRequests, Tools.createAndRegisterTool, truthyStr,
      SelfImprove.mkStep, Except.toOption,
      hCall, hAsst, hAnalyze, h, hWf, hRes, hUpd, hVerify, hNotify, hFail, hOk, hSmoke]

/-- A concrete tool spec whose handler source does not compile. -/
def specBad : Tools.ToolSpec :=
  { name := "send_sms", description := "Send an SMS"
    parameters :=
      { type := "object"
        properties := [("to", { type := "string", description := "Phone number" })]
        required := ["to"] }
    handlerCode := "BAD SYNTAX(" }

/-- A concrete analysis requesting two direct tools, the first of which will
fail to compile. -/
def analysisTwoTools : SelfImprove.AnalysisResult :=
  { failures := ["Missing SMS and lookup tools"]
    changes := ["Added tools"]
    configChanges := { systemMessage := some "New prompt" }
    newTools := some [specBad, lookupOrderSpec] }

/-- A concrete environment for the two-tool scenario: compiling the bad
source rejects, everything else succeeds. -/
def envTwoTools : SelfImprove.Env :=
  { pipelineEnvOk with
    analyze := Except.ok (analysisTwoTools, "RAW")
    tools :=
      { now := "T0", vapiConfigured := false
        buildHandler := fun code =>
          if code = "BAD SYNTAX(" then Except.error "Unexpected token"
          else Except.ok (fun _ => Except.ok "ran")
        vapiSync := fun _ => Except.ok ()
        notifyOperator := fun _ => Except.ok () } }

/-- Witness for C4 at the concrete two-tool environment. -/
theorem c4_per_item_synthesis_failure_continues_witness :
    ∃ rec, (SelfImprove.analyzeAndImprove envTwoTools st0 "call-1" none).1
        = Except.ok rec ∧
      (SelfImprove.analyzeAndImprove envTwoTools st0 "call-1" none).2.history
        = st0.history ++ [rec] ∧
      "lookup_order" ∈ rec.toolsCreated ∧
      ∃ entry ∈ rec.pipelineLog, entry.step = "create_tool" ∧
        entry.status = SelfImprove.StepStatus.error ∧
        entry.detail = "Failed to create tool \"send_sms\": Unexpected token" :=
  c4_per_item_synthesis_failure_continues envTwoTools st0 "call-1"
    { transcript := some "Caller: send me a WhatsApp update"
      status := "ended", endedReason := some "customer-ended-call" }
    { systemMessage := "You help with shipments.", config := liveProfileC1 }
    { systemMessage := "New prompt", config := liveProfileC1 }
    analysisTwoTools "RAW" specBad lookupOrderSpec "Unexpected token" "ran"
    (fun _ => Except.ok "ran") rfl rfl rfl (Or.inl rfl) rfl rfl rfl rfl
    (fun _ => rfl) (by rfl) (by rfl) rfl

/-- C7 (amended): every capability synthesized from the reasoning output's
`newTools` list is, right after registration, smoke-tested by invoking its
handler once on the synthetic arguments ("test" for string-typed schema
fields, 0 otherwise); when that invocation fails, the failure is logged as a
`test_tool` error step while the capability remains in the registry and in
the record's created-capabilities list. -/
theorem c7_newTool_smoke_failure_keeps_tool
    (env : SelfImprove.Env) (st : SelfImprove.SysState) (callId : String)
    (call : SelfImprove.CallInfo) (assistant assistant2 : SelfImprove.AssistantInfo)
    (analysis : SelfImprove.AnalysisResult) (raw eMsg : String)
    (spec : Tools.ToolSpec) (hH : Tools.Handler)
    (hCall : env.getCall = Except.ok call)
    (hAsst : env.getAssistantFetch = Except.ok assistant)
    (hAnalyze : env.analyze = Except.ok (analysis, raw))
    (hTools : analysis.newTools = some [spec])
    (hWf : analysis.newWorkflows.getD [] = [])
    (hRes : analysis.resourceRequests.getD [] = [])
    (hUpd : env.updAssistant = Except.ok ())
    (hVerify : env.getAssistantVerify = Except.ok assistant2)
    (hNotify : ∀ s, env.tools.notifyOperator s = Except.ok ())
    (hOk : env.tools.buildHandler spec.handlerCode = Except.ok hH)
    (hSmoke : hH (SelfImprove.mkTestArgs spec.parameters) = Except.error eMsg) :
    ∃ rec, (SelfImprove.analyzeAndImprove env st callId none).1 = Except.ok rec ∧
      (SelfImprove.analyzeAndImprove env st callId none).2.history
        = st.history ++ [rec] ∧
      spec.name ∈ rec.toolsCreated ∧
      (∃ entry ∈ rec.pipelineLog, entry.step = "test_tool" ∧
        entry.status = SelfImprove.StepStatus.error ∧
        entry.detail = "Tool \"" ++ spec.name ++ "\" smoke test failed: " ++ eMsg) ∧
      Tools.getTool (SelfImprove.analyzeAndImprove env st callId none).2.registry
          spec.name
        = some { name := spec.name, description := spec.description
                 parameters := spec.parameters, handler := hH
                 createdAt := env.tools.now, isDynamic := true } := by
  refine ⟨((SelfImprove.analyzeAndImprove env st callId none).1).toOption.getD
    default, ?_, ?_, ?_, ?_, ?_⟩ <;>
  simp [SelfImprove.analyzeAndImprove, SelfImprove.runTools,
    SelfImprove.runResourceRequests, Tools.createAndRegisterTool,
    Tools.registerTool, Tools.getTool_registrySet, truthyStr,
    SelfImprove.mkStep, Except.toOption,
    hCall, hAsst, hAnalyze, hTools, hWf, hRes, hUpd, hVerify, hNotify, hOk, hSmoke]

/-- A concrete tool spec whose compiled handler always crashes at call time. -/
def specSmokeFail : Tools.ToolSpec :=
  { name := "flaky_lookup", description := "Flaky data lookup"
    parameters :=
      { type := "object"
        properties := [("q", { type := "string", description := "Query" }),
                       ("limit", { type := "number", description := "Max results" })]
        required := ["q"] }
    handlerCode := "THROWS" }

/-- A concrete analysis requesting only the crashing tool. -/
def analysisSmoke : SelfImprove.AnalysisResult :=
  { failures := ["Missing lookup tool"]
    changes := ["Added lookup tool"]
    configChanges := { systemMessage := some "New prompt" }
    newTools := some [specSmokeFail] }

/-- A concrete environment where the synthesized handler compiles but fails
its smoke-test invocation. -/
def envSmokeFail : SelfImprove.Env :=
  { pipelineEnvOk with
    analyze := Except.ok (analysisSmoke, "RAW")
    tools :=
      { now := "T0", vapiConfigured := false
        buildHandler := fun code =>
          if code = "THROWS" then Except.ok (fun _ => Except.error "handler crashed")
          else Except.ok (fun _ => Except.ok "ran")
        vapiSync := fun _ => Except.ok ()
        notifyOperator := fun _ => Except.ok () } }

/-- Witness for the amended C7 at the concrete crashing-handler environment. -/
theorem c7_newTool_smoke_failure_keeps_tool_witness :
    ∃ rec, (SelfImprove.analyzeAndImprove envSmokeFail st0 "call-1" none).1
        = Except.ok rec ∧
      (SelfImprove.analyzeAndImprove envSmokeFail st0 "call-1" none).2.history
        = st0.history ++ [rec] ∧
      "flaky_lookup" ∈ rec.toolsCreated ∧
      (∃ entry ∈ rec.pipelineLog, entry.step = "test_tool" ∧
        entry.status = SelfImprove.StepStatus.error ∧
        entry.detail = "Tool \"flaky_lookup\" smoke test failed: handler crashed") ∧
      Tools.getTool
          (SelfImprove.analyzeAndImprove envSmokeFail st0 "call-1" none).2.registry
          "flaky_lookup"
        = some { name := "flaky_lookup", description := "Flaky data lookup"
                 parameters := specSmokeFail.parameters
                 handler := fun _ => Except.error "handler crashed"
                 createdAt := "T0", isDynamic := true } :=
  c7_newTool_smoke_failure_keeps_tool envSmokeFail st0 "call-1"
    { transcript := some "Caller: send me a WhatsApp update"
      status := "ended", endedReason := some "customer-ended-call" }
    { systemMessage := "You help with shipments.", config := liveProfileC1 }
    { systemMessage := "New prompt", config := liveProfileC1 }
    analysisSmoke "RAW" "handler crashed" specSmokeFail
    (fun _ => Except.error "handler crashed")
    rfl rfl rfl rfl rfl rfl rfl rfl (fun _ => rfl) (by rfl) rfl

/-- C7 counterexample: a pipeline run that deploys one workflow registers
the synthesized wiring capability (it lands in the registry and in the
record's `toolsCreated`) but never smoke-tests it — the step log of the
completed run contains no `test_tool` entry at all, refuting the claim that
every synthesized capability registered by the pipeline is immediately
smoke-tested. -/
theorem c7_wiring_tool_not_smoke_tested :
    ((SelfImprove.analyzeAndImprove pipelineEnvOk st0 "call-1" none).1.toOption.map
        (fun r => r.toolsCreated)) = some ["send_customer_whatsapp"] ∧
    (Tools.getTool
        (SelfImprove.analyzeAndImprove pipelineEnvOk st0 "call-1" none).2.registry
        "send_customer_whatsapp").isSome = true ∧
    ∀ e ∈ (((SelfImprove.analyzeAndImprove pipelineEnvOk st0 "call-1" none).1.toOption.map
        (fun r => r.pipelineLog)).getD []), e.step ≠ "test_tool" := by
  refine ⟨?_, ?_, ?_⟩
  · rfl
  · rfl
  · decide

namespace Server

/-- `badEndings` (`backend/server.ts`, part_006 lines 90-94): the fixed set
of unsatisfactory end-reason codes that triggers the pipeline. -/
def badEndings : List String :=
  ["customer-ended-call", "customer-did-not-answer", "customer-busy"]

/-- `endedReason && badEndings.includes(endedReason)` (part_006 lines
95-96). -/
def shouldImprove (endedReason : Option String) : Bool :=
  truthyStr endedReason && badEndings.contains (endedReason.getD "")

/-- Outcome of one `/vapi/server-message` webhook delivery: whether the
handler acknowledged (it always responds `{ok: true}`), whether the
self-improvement pipeline was started, and the process-local state left
behind. -/
structure ServerMessageResult where
  ack : Bool
  triggered : Bool
  state : SelfImprove.SysState

/-- The `/vapi/server-message` handler (part_006 lines 72-113).
`assistantId` is the resolved profile identifier
(`call?.assistantId || process.env.VAPI_ASSISTANT_ID`).  The pipeline runs
only for an `end-of-call-report` with truthy call and assistant identifiers
and an end reason in `badEndings`; it is fired and forgotten — the webhook
acknowledges immediately and a pipeline rejection is swallowed by `.catch`,
though the pipeline's state mutations survive. -/
def handleServerMessage (env : SelfImprove.Env) (st : SelfImprove.SysState)
    (msgType : String) (callId assistantId endedReason customerNumber : Option String) :
    ServerMessageResult :=
  if msgType = "end-of-call-report" then
    if truthyStr callId && truthyStr assistantId && shouldImprove endedReason then
      let r := SelfImprove.analyzeAndImprove env st (callId.getD "") customerNumber
      { ack := true, triggered := true, state := r.2 }
    else
      { ack := true, triggered := false, state := st }
  else
    { ack := true, triggered := false, state := st }

/-- `shouldImprove` holds exactly on the fixed unsatisfactory end-reason
codes. -/
theorem shouldImprove_iff (r : Option String) :
    shouldImprove r = true ↔ ∃ s, r = some s ∧ s ∈ badEndings := by
  cases r with
  | none => simp [shouldImprove, truthyStr]
  | some s =>
      simp [shouldImprove, truthyStr, badEndings]
      rintro (h | h | h) <;> subst h <;> rfl

end Server

/-- C8: the end-of-call webhook starts the self-improvement pipeline exactly
when the event is an end-of-call-report carrying an outcome identifier, a
resolvable profile identifier, and an end reason in the fixed set
{customer-ended-call, customer-did-not-answer, customer-busy}; for the
reason "assistant-ended-call" the webhook is acknowledged, no pipeline run
occurs and the state (hence the history) is unchanged — and in general a
non-triggering delivery never changes the state. -/
theorem c8_webhook_trigger_condition (env : SelfImprove.Env)
    (st : SelfImprove.SysState) (mt : String)
    (c a r cn : Option String) :
    ((Server.handleServerMessage env st mt c a r cn).triggered = true ↔
      (mt = "end-of-call-report" ∧ truthyStr c = true ∧ truthyStr a = true ∧
        ∃ s, r = some s ∧ s ∈ Server.badEndings)) ∧
    (Server.handleServerMessage env st mt c a (some "assistant-ended-call") cn).ack
      = true ∧
    (Server.handleServerMessage env st mt c a (some "assistant-ended-call") cn).triggered
      = false ∧
    (Server.handleServerMessage env st mt c a (some "assistant-ended-call") cn).state
      = st ∧
    ((Server.handleServerMessage env st mt c a r cn).triggered = false →
      (Server.handleServerMessage env st mt c a r cn).state = st) := by
  by_cases hmt : mt = "end-of-call-report"
  · subst hmt
    by_cases hgo : (truthyStr c && truthyStr a && Server.shouldImprove r) = true
    · have hsi : Server.shouldImprove r = true := by
        rcases Bool.and_eq_true_iff.mp hgo with ⟨-, h2⟩
        exact h2
      have hc : truthyStr c = true := by
        rcases Bool.and_eq_true_iff.mp hgo with ⟨h1, -⟩
        rcases Bool.and_eq_true_iff.mp h1 with ⟨h3, -⟩
        exact h3
      have ha : truthyStr a = true := by
        rcases Bool.and_eq_true_iff.mp hgo with ⟨h1, -⟩
        rcases Bool.and_eq_true_iff.mp h1 with ⟨-, h4⟩
        exact h4
      refine ⟨?_, ?_, ?_, ?_, ?_⟩
      · simp only [Server.handleServerMessage, if_pos rfl, hgo, if_true]
        simp [hc, ha, (Server.shouldImprove_iff r).mp hsi]
      · simp [Server.handleServerMessage, Server.shouldImprove, Server.badEndings,
          truthyStr]
      · simp [Server.handleServerMessage, Server.shouldImprove, Server.badEndings,
          truthyStr]
      · simp [Server.handleServerMessage, Server.shouldImprove, Server.badEndings,
          truthyStr]
      · simp only [Server.handleServerMessage, if_pos rfl, hgo, if_true]
        intro hfalse
        cases hfalse
    · refine ⟨?_, ?_, ?_, ?_, ?_⟩
      · simp only [Server.handleServerMessage, if_pos rfl, hgo, if_false]
        constructor
        · intro hfalse
          cases hfalse
        · rintro ⟨-, hc, ha, s, hs, hmem⟩
          exact absurd (by
            have hsi : Server.shouldImprove r = true :=
              (Server.shouldImprove_iff r).mpr ⟨s, hs, hmem⟩
            simp [hc, ha, hsi]) hgo
      · simp [Server.handleServerMessage, Server.shouldImprove, Server.badEndings,
          truthyStr]
      · simp [Server.handleServerMessage, Server.shouldImprove, Server.badEndings,
          truthyStr]
      · simp [Server.handleServerMessage, Server.shouldImprove, Server.badEndings,
          truthyStr]
      · simp [Server.handleServerMessage, hgo]
  · refine ⟨?_, ?_, ?_, ?_, ?_⟩ <;>
      simp [Server.handleServerMessage, hmt]

/-- Witness for C8: a concrete triggering delivery and a concrete
"assistant-ended-call" delivery. -/
theorem c8_webhook_trigger_condition_witness :
    (Server.handleServerMessage pipelineEnvOk st0 "end-of-call-report"
        (some "call-1") (some "asst-1") (some "customer-ended-call") none).triggered
      = true ∧
    (Server.handleServerMessage pipelineEnvOk st0 "end-of-call-report"
        (some "call-1") (some "asst-1") (some "assistant-ended-call") none).triggered
      = false ∧
    (Server.handleServerMessage pipelineEnvOk st0 "end-of-call-report"
        (some "call-1") (some "asst-1") (some "assistant-ended-call") none).state
      = st0 := by
  refine ⟨?_, ?_, ?_⟩
  · exact (c8_webhook_trigger_condition pipelineEnvOk st0 "end-of-call-report"
      (some "call-1") (some "asst-1") (some "customer-ended-call") none).1.mpr
      ⟨rfl, rfl, rfl, "customer-ended-call", rfl, by simp [Server.badEndings]⟩
  · exact (c8_webhook_trigger_condition pipelineEnvOk st0 "end-of-call-report"
      (some "call-1") (some "asst-1") (some "assistant-ended-call") none).2.2.1
  · exact (c8_webhook_trigger_condition pipelineEnvOk st0 "end-of-call-report"
      (some "call-1") (some "asst-1") (some "assistant-ended-call") none).2.2.2.1

namespace Baseline

/-- `BASELINE` (`backend/baseline.ts`): the deliberately weak baseline
partial profile applied by reset.  The source's `voiceSpeed: 1.0` is the
integer 1 in this model. -/
def BASELINE : AssistantConfig :=
  { systemMessage := some
      "You are a logistics assistant for Ruya Logistics in Dubai. You help customers with shipping and container inquiries from Jebel Ali port."
    maxTokens := some 250
    voiceSpeed := some 1
    firstMessage := some "Hello, this is Ruya Logistics."
    silenceTimeoutSeconds := some 10
    toolIds := some []
    messagePlan := some (JVal.obj
      [("idleMessages", JVal.arr []),
       ("idleTimeoutSeconds", JVal.n 10),
       ("idleMessageMaxSpokenCount", JVal.n 0)]) }

/-- `resetToBaseline` (`backend/baseline.ts`): first the awaited, uncaught
provider write `updateAssistant(assistantId, BASELINE)` (its outcome is the
oracle `upd`; a rejection aborts the reset before any local clearing), then
`clearDynamicTools()` on the registry and `clearHistory()` on the
improvement history. -/
def resetToBaseline (upd : Except String Unit) (st : SelfImprove.SysState) :
    Except String Unit × SelfImprove.SysState :=
  match upd with
  | Except.error m => (Except.error m, st)
  | Except.ok _ =>
      (Except.ok (),
       { registry := Tools.clearDynamicTools st.registry, history := [] })

end Baseline

/-- Clearing dynamic tools twice is the same as clearing once. -/
theorem clearDynamicTools_idem (reg : Tools.Registry) :
    Tools.clearDynamicTools (Tools.clearDynamicTools reg)
      = Tools.clearDynamicTools reg := by
  induction reg with
  | nil => rfl
  | cons hd tl _ =>
      by_cases h : hd.2.isDynamic <;> simp [Tools.clearDynamicTools, h]

/-- A concrete trusted-context oracle for the seed tools. -/
def io0 : Tools.Integrations :=
  { sendWhatsApp := fun _ _ => Except.ok { sent := true, id := none }
    notifyOperator := fun _ => Except.ok ()
    triggerN8nWorkflow := fun _ => Except.ok "ok" }

/-- A synthesized tool registered under the seed name
`check_shipment_status`, shadowing the seed entry (last-write-wins). -/
def shadowTool : Tools.RegisteredTool :=
  { name := "check_shipment_status", description := "Synthesized replacement"
    parameters := { type := "object", properties := [], required := [] }
    handler := fun _ => Except.ok "shadow", createdAt := "T1", isDynamic := true }

/-- The state after the pipeline re-registered a dynamic tool over a seed
name. -/
def stShadow : SelfImprove.SysState :=
  { registry := Tools.registerTool (Tools.seedTools io0 "T0") shadowTool
    history := [] }

/-- C9 counterexample: when a synthesized capability has been registered
under a seed name (which `registerTool` permits — last-write-wins), reset
deletes it as dynamic and the seed entry it had overwritten is gone too, so
the registry after one reset is not the seed capability set: the
`check_shipment_status` seed tool is missing. -/
theorem c9_shadowed_seed_not_restored :
    ((Baseline.resetToBaseline (Except.ok ()) stShadow).2.registry.map
        (fun p => p.1))
      = ["send_customer_whatsapp", "send_email_notification",
         "escalate_to_operator"] ∧
    ((Tools.seedTools io0 "T0").map (fun p => p.1))
      = ["check_shipment_status", "send_customer_whatsapp",
         "send_email_notification", "escalate_to_operator"] ∧
    Tools.getTool (Baseline.resetToBaseline (Except.ok ()) stShadow).2.registry
        "check_shipment_status" = none :=
  ⟨rfl, rfl, rfl⟩

/-- C9 (amended): provided the non-dynamic part of the registry is exactly
the seed set — that is, no synthesized registration reused a seed name — a
completed reset leaves the registry equal to the seed capability set and the
history empty, and resetting again (any number of times) reproduces exactly
the same state; idempotence of the process-local reset holds unconditionally
for every state. -/
theorem c9_reset_idempotent (io : Tools.Integrations) (now : String)
    (st : SelfImprove.SysState)
    (h : Tools.clearDynamicTools st.registry = Tools.seedTools io now) :
    (Baseline.resetToBaseline (Except.ok ()) st).2.registry
      = Tools.seedTools io now ∧
    (Baseline.resetToBaseline (Except.ok ()) st).2.history = [] ∧
    Baseline.resetToBaseline (Except.ok ())
        (Baseline.resetToBaseline (Except.ok ()) st).2
      = Baseline.resetToBaseline (Except.ok ()) st ∧
    ∀ st' : SelfImprove.SysState,
      Baseline.resetToBaseline (Except.ok ())
          (Baseline.resetToBaseline (Except.ok ()) st').2
        = Baseline.resetToBaseline (Except.ok ()) st' := by
  refine ⟨h, rfl, ?_, ?_⟩
  · simp [Baseline.resetToBaseline, clearDynamicTools_idem]
  · intro st'
    simp [Baseline.resetToBaseline, clearDynamicTools_idem]

/-- A state holding the seed set plus one ordinary dynamic tool. -/
def stSeedPlusDyn : SelfImprove.SysState :=
  { registry := Tools.registerTool (Tools.seedTools io0 "T0") newEchoTool
    history := [default] }

/-- Witness for the amended C9 at a concrete seed-plus-dynamic state with a
nonempty history. -/
theorem c9_reset_idempotent_witness :
    (Baseline.resetToBaseline (Except.ok ()) stSeedPlusDyn).2.registry
      = Tools.seedTools io0 "T0" ∧
    (Baseline.resetToBaseline (Except.ok ()) stSeedPlusDyn).2.history = [] ∧
    Baseline.resetToBaseline (Except.ok ())
        (Baseline.resetToBaseline (Except.ok ()) stSeedPlusDyn).2
      = Baseline.resetToBaseline (Except.ok ()) stSeedPlusDyn ∧
    ∀ st' : SelfImprove.SysState,
      Baseline.resetToBaseline (Except.ok ())
          (Baseline.resetToBaseline (Except.ok ()) st').2
        = Baseline.resetToBaseline (Except.ok ()) st' :=
  c9_reset_idempotent io0 "T0" stSeedPlusDyn rfl
